import Mathlib

/-!
Shallow embedding of
`targets/TARGET_STM/TARGET_STM32L4/TARGET_MTS_DRAGONFLY_L471QG/ONBOARD_SARA4_PPP.cpp`.

The file defines two lifecycle methods (`power_on`, `power_off`) that call
four board-level power hooks and always return `NSAPI_ERROR_OK`, and the
factory `CellularDevice::get_target_default_instance`, which lazily
constructs a function-local-static `UARTSerial` and a function-local-static
`ONBOARD_SARA4_PPP` adapter, optionally configuring RTS/CTS flow control,
and returns a pointer to the adapter.

Side effects are modelled as an event trace; the function-local statics are
modelled as an explicit `State` with an allocation counter, so that pointer
identity of the returned instance is the identity of its allocation id.
-/

namespace OnboardSara4

/-- Pin names as in mbed `PinNames.h`: `NC` means "not connected", any other
pin is identified by its numeric encoding. -/
inductive PinName where
  | NC : PinName
  | pin : Nat → PinName
deriving DecidableEq, Repr

/-- Flow-control modes of `SerialBase` (only `RTSCTS` is used here). -/
inductive FlowControlMode where
  | RTSCTS : FlowControlMode
deriving DecidableEq, Repr

/-- `nsapi_error_t` result codes (subset used by this file). -/
inductive NsapiError where
  | ok : NsapiError
  | deviceError : NsapiError
deriving DecidableEq, Repr

def NSAPI_ERROR_OK : NsapiError := NsapiError.ok

/-- Outcome of one of the board power hooks (`onboard_modem_*`).  The C++
hooks return `void`; this type models "every possible outcome" of the real
hardware action, which the code cannot observe. -/
inductive HookOutcome where
  | success : HookOutcome
  | failure : HookOutcome
deriving DecidableEq, Repr

/-- Observable events emitted by the code: the four power hooks, the two
static constructions inside the factory, the flow-control log line and the
`set_flow_control` call. -/
inductive Event where
  | onboard_modem_init : Event
  | onboard_modem_power_up : Event
  | onboard_modem_power_down : Event
  | onboard_modem_deinit : Event
  | constructSerial (tx rx : PinName) (baud : Nat) : Event
  | logFlowControl (rts cts : PinName) : Event
  | set_flow_control (mode : FlowControlMode) (rts cts : PinName) : Event
  | constructDevice (serialId : Nat) : Event
deriving DecidableEq, Repr

/-- `ONBOARD_SARA4_PPP::power_on`: calls `onboard_modem_init()` then
`onboard_modem_power_up()` and returns `NSAPI_ERROR_OK`.  The hook outcomes
are parameters because the code ignores them. -/
def power_on (initOutcome powerUpOutcome : HookOutcome) :
    List Event × NsapiError :=
  ([Event.onboard_modem_init, Event.onboard_modem_power_up], NSAPI_ERROR_OK)

/-- `ONBOARD_SARA4_PPP::power_off`: calls `onboard_modem_power_down()` then
`onboard_modem_deinit()` and returns `NSAPI_ERROR_OK`. -/
def power_off (powerDownOutcome deinitOutcome : HookOutcome) :
    List Event × NsapiError :=
  ([Event.onboard_modem_power_down, Event.onboard_modem_deinit],
   NSAPI_ERROR_OK)

/-- Compile-time configuration of the target: the `DEVICE_SERIAL_FC`
feature flag, the modem UART pins and the configured baud rate. -/
structure Config where
  DEVICE_SERIAL_FC : Bool
  MDMTXD : PinName
  MDMRXD : PinName
  MBED_CONF_SARA4_PPP_BAUDRATE : Nat
  MDMRTS : PinName
  MDMCTS : PinName
deriving DecidableEq, Repr

/-- Runtime state of the two function-local statics in
`get_target_default_instance`.  `nextId` is a fresh-allocation counter so
that object identity (the C++ address) is represented by an id. -/
structure State where
  serialId : Option Nat
  deviceId : Option Nat
  nextId : Nat
deriving DecidableEq, Repr

/-- State before the first call: neither static is constructed. -/
def initState : State := { serialId := none, deviceId := none, nextId := 0 }

/-- The events emitted by the flow-control block of
`get_target_default_instance`: under `#if DEVICE_SERIAL_FC`, if
`MDMRTS != NC && MDMCTS != NC`, the log line `tr_info(...)` followed by
`serial.set_flow_control(SerialBase::RTSCTS, MDMRTS, MDMCTS)`; otherwise
nothing. -/
def fcEvents (c : Config) : List Event :=
  if c.DEVICE_SERIAL_FC then
    if c.MDMRTS ≠ PinName.NC ∧ c.MDMCTS ≠ PinName.NC then
      [Event.logFlowControl c.MDMRTS c.MDMCTS,
       Event.set_flow_control FlowControlMode.RTSCTS c.MDMRTS c.MDMCTS]
    else []
  else []

/-- One call to `CellularDevice::get_target_default_instance`.
Returns the new state, the events of this call in order, and the id of the
returned adapter (the value of `&device`).

Mirrors the source line by line:
1. `static UARTSerial serial(MDMTXD, MDMRXD, MBED_CONF_SARA4_PPP_BAUDRATE);`
   constructs the transport only on the first call;
2. under `#if DEVICE_SERIAL_FC`, `if (MDMRTS != NC && MDMCTS != NC)` logs
   and calls `serial.set_flow_control(SerialBase::RTSCTS, MDMRTS, MDMCTS)`
   — this block is outside the static initialisations, so it runs on every
   call;
3. `static ONBOARD_SARA4_PPP device(&serial);` constructs the adapter only
   on the first call;
4. `return &device;`. -/
def get_target_default_instance (c : Config) (s : State) :
    State × List Event × Nat :=
  let step1 : State × List Event :=
    match s.serialId with
    | some _ => (s, [])
    | none =>
        ({ s with serialId := some s.nextId, nextId := s.nextId + 1 },
         [Event.constructSerial c.MDMTXD c.MDMRXD
            c.MBED_CONF_SARA4_PPP_BAUDRATE])
  let s1 := step1.1
  let ev1 := step1.2
  let ev2 : List Event := fcEvents c
  let step3 : State × List Event × Nat :=
    match s1.deviceId with
    | some d => (s1, [], d)
    | none =>
        ({ s1 with deviceId := some s1.nextId, nextId := s1.nextId + 1 },
         [Event.constructDevice (s1.serialId.getD 0)], s1.nextId)
  (step3.1, ev1 ++ ev2 ++ step3.2.1, step3.2.2)

/-- A sequence of `n` calls to `get_target_default_instance` starting from
state `s`: final state, concatenated event trace, returned adapter ids in
call order. -/
def callSeq (c : Config) (s : State) : Nat → State × List Event × List Nat
  | 0 => (s, [], [])
  | n + 1 =>
      let r1 := get_target_default_instance c s
      let rest := callSeq c r1.1 n
      (rest.1, r1.2.1 ++ rest.2.1, r1.2.2 :: rest.2.2)

/-- `n` calls from process start. -/
def run (c : Config) (n : Nat) : State × List Event × List Nat :=
  callSeq c initState n

/-- Recogniser for `set_flow_control` events. -/
def isSetFlowControl : Event → Bool
  | Event.set_flow_control _ _ _ => true
  | _ => false

/-- Recogniser for the flow-control log line. -/
def isLogFlowControl : Event → Bool
  | Event.logFlowControl _ _ => true
  | _ => false

/-- Recogniser for serial-transport construction events. -/
def isConstructSerial : Event → Bool
  | Event.constructSerial _ _ _ => true
  | _ => false

/-- Recogniser for adapter construction events. -/
def isConstructDevice : Event → Bool
  | Event.constructDevice _ => true
  | _ => false

/-- The state after the first call: the serial transport holds allocation
id 0, the adapter holds allocation id 1, and both statics stay alive. -/
def postState : State := { serialId := some 0, deviceId := some 1, nextId := 2 }

/-- A concrete configuration: flow control compiled in, both pins wired. -/
def cfgFC : Config :=
  ⟨true, PinName.pin 2, PinName.pin 3, 115200, PinName.pin 0, PinName.pin 1⟩

/-- A concrete configuration with `DEVICE_SERIAL_FC` disabled. -/
def cfgNoFC : Config :=
  ⟨false, PinName.pin 2, PinName.pin 3, 115200, PinName.pin 0, PinName.pin 1⟩

/-- A concrete configuration with the flag enabled but CTS unconnected. -/
def cfgNC : Config :=
  ⟨true, PinName.pin 2, PinName.pin 3, 115200, PinName.pin 0, PinName.NC⟩

lemma fcEvents_flag_off {c : Config} (h : c.DEVICE_SERIAL_FC = false) :
    fcEvents c = [] := by
  simp [fcEvents, h]

lemma fcEvents_pin_nc {c : Config}
    (h : c.MDMRTS = PinName.NC ∨ c.MDMCTS = PinName.NC) :
    fcEvents c = [] := by
  unfold fcEvents
  rcases h with h | h <;> simp [h]

lemma fcEvents_configured {c : Config} (hf : c.DEVICE_SERIAL_FC = true)
    (hr : c.MDMRTS ≠ PinName.NC) (hc : c.MDMCTS ≠ PinName.NC) :
    fcEvents c =
      [Event.logFlowControl c.MDMRTS c.MDMCTS,
       Event.set_flow_control FlowControlMode.RTSCTS c.MDMRTS c.MDMCTS] := by
  simp [fcEvents, hf, hr, hc]

lemma gtdi_initState (c : Config) :
    get_target_default_instance c initState =
      (postState,
       Event.constructSerial c.MDMTXD c.MDMRXD c.MBED_CONF_SARA4_PPP_BAUDRATE ::
         (fcEvents c ++ [Event.constructDevice 0]), 1) := by
  simp [get_target_default_instance, initState, postState]

lemma gtdi_postState (c : Config) :
    get_target_default_instance c postState = (postState, fcEvents c, 1) := by
  simp [get_target_default_instance, postState]

lemma callSeq_postState (c : Config) : ∀ n : Nat,
    callSeq c postState n =
      (postState, List.flatten (List.replicate n (fcEvents c)),
       List.replicate n 1) := by
  intro n
  induction n with
  | zero => simp [callSeq]
  | succ k ih => simp [callSeq, gtdi_postState, ih, List.replicate_succ]

lemma run_succ (c : Config) (n : Nat) :
    run c (n + 1) =
      (postState,
       Event.constructSerial c.MDMTXD c.MDMRXD c.MBED_CONF_SARA4_PPP_BAUDRATE ::
         (fcEvents c ++ [Event.constructDevice 0] ++
           List.flatten (List.replicate n (fcEvents c))),
       1 :: List.replicate n 1) := by
  simp [run, callSeq, gtdi_initState, callSeq_postState, List.append_assoc]

lemma countP_join_replicate {α : Type} (p : α → Bool) (l : List α) :
    ∀ k : Nat, List.countP p (List.flatten (List.replicate k l)) =
      k * List.countP p l := by
  intro k
  induction k with
  | zero => simp
  | succ m ih =>
      simp [List.replicate_succ, List.countP_append, ih, Nat.succ_mul]
      omega

lemma flatten_replicate_nil {α : Type} :
    ∀ k : Nat, List.flatten (List.replicate k ([] : List α)) = [] := by
  intro k
  induction k with
  | zero => simp
  | succ m ih => simp [List.replicate_succ, ih]

lemma countP_fcEvents_serial (c : Config) :
    List.countP isConstructSerial (fcEvents c) = 0 := by
  unfold fcEvents
  split
  · split
    · simp [isConstructSerial]
    · simp
  · simp

lemma countP_fcEvents_device (c : Config) :
    List.countP isConstructDevice (fcEvents c) = 0 := by
  unfold fcEvents
  split
  · split
    · simp [isConstructDevice]
    · simp
  · simp

lemma run_ids (c : Config) (n : Nat) : (run c n).2.2 = List.replicate n 1 := by
  cases n with
  | zero => simp [run, callSeq]
  | succ m => rw [run_succ]; simp [List.replicate_succ]

lemma mem_fcEvents_gtdi (c : Config) (s : State) {e : Event}
    (he : e ∈ fcEvents c) :
    e ∈ (get_target_default_instance c s).2.1 := by
  unfold get_target_default_instance
  rcases h1 : s.serialId with _ | a <;> rcases h2 : s.deviceId with _ | b <;>
    simp [h1, h2, he]

/-- Claim C3: `power_on()` always returns `NSAPI_ERROR_OK`, for every
possible outcome of the underlying power-sequencing hooks; no hook failure
is observable through its return value. -/
theorem C3_power_on_always_ok (o1 o2 : HookOutcome) :
    (power_on o1 o2).2 = NSAPI_ERROR_OK := rfl

/-- Claim C4: `power_off()` always returns `NSAPI_ERROR_OK`, for every
possible outcome of the underlying power-sequencing hooks. -/
theorem C4_power_off_always_ok (o1 o2 : HookOutcome) :
    (power_off o1 o2).2 = NSAPI_ERROR_OK := rfl

/-- Claim C5: every call to `power_on()` invokes exactly two hooks, in
order: `onboard_modem_init` then `onboard_modem_power_up`. -/
theorem C5_power_on_hook_order (o1 o2 : HookOutcome) :
    (power_on o1 o2).1 =
      [Event.onboard_modem_init, Event.onboard_modem_power_up] := rfl

/-- Claim C6: every call to `power_off()` invokes exactly two hooks, in
order: `onboard_modem_power_down` then `onboard_modem_deinit`. -/
theorem C6_power_off_hook_order (o1 o2 : HookOutcome) :
    (power_off o1 o2).1 =
      [Event.onboard_modem_power_down, Event.onboard_modem_deinit] := rfl

/-- Claim C2: for every pair of calls to `get_target_default_instance()`,
both calls return the identical adapter instance (the same allocation id,
modelling the same address), not merely an equal one. -/
theorem C2_same_instance (c : Config) (n i j : Nat)
    (hi : i < n) (hj : j < n) :
    (run c n).2.2.getD i 0 = (run c n).2.2.getD j 0 := by
  rw [run_ids]
  rw [List.getD_eq_getElem?_getD, List.getD_eq_getElem?_getD]
  simp [List.getElem?_replicate, hi, hj]

/-- Witness for C2 at two concrete calls. -/
theorem C2_same_instance_witness :
    0 < 2 ∧ 1 < 2 ∧
      (run cfgFC 2).2.2.getD 0 0 = (run cfgFC 2).2.2.getD 1 0 :=
  ⟨by decide, by decide, C2_same_instance cfgFC 2 0 1 (by decide) (by decide)⟩

/-- Claim C7: when `DEVICE_SERIAL_FC` is disabled, no call to
`get_target_default_instance()` ever invokes `set_flow_control`, whatever
the pin configuration. -/
theorem C7_flag_disabled_no_fc (c : Config) (n : Nat)
    (m : FlowControlMode) (r t : PinName)
    (h : c.DEVICE_SERIAL_FC = false) :
    Event.set_flow_control m r t ∉ (run c n).2.1 := by
  cases n with
  | zero => simp [run, callSeq]
  | succ k =>
      rw [run_succ]
      simp [fcEvents_flag_off h, flatten_replicate_nil]

/-- Witness for C7 at a concrete configuration with the flag disabled. -/
theorem C7_flag_disabled_no_fc_witness :
    cfgNoFC.DEVICE_SERIAL_FC = false ∧
      Event.set_flow_control FlowControlMode.RTSCTS (PinName.pin 0)
        (PinName.pin 1) ∉ (run cfgNoFC 3).2.1 :=
  ⟨rfl, C7_flag_disabled_no_fc cfgNoFC 3 FlowControlMode.RTSCTS
    (PinName.pin 0) (PinName.pin 1) rfl⟩

/-- Claim C8: when the flag is enabled but at least one of the RTS/CTS pins
is `NC`, no call to `get_target_default_instance()` ever invokes
`set_flow_control`. -/
theorem C8_pin_nc_no_fc (c : Config) (n : Nat)
    (m : FlowControlMode) (r t : PinName)
    (hf : c.DEVICE_SERIAL_FC = true)
    (h : c.MDMRTS = PinName.NC ∨ c.MDMCTS = PinName.NC) :
    Event.set_flow_control m r t ∉ (run c n).2.1 := by
  cases n with
  | zero => simp [run, callSeq]
  | succ k =>
      rw [run_succ]
      simp [fcEvents_pin_nc h, flatten_replicate_nil]

/-- Witness for C8 at a concrete configuration with CTS not connected. -/
theorem C8_pin_nc_no_fc_witness :
    cfgNC.DEVICE_SERIAL_FC = true ∧
      (cfgNC.MDMRTS = PinName.NC ∨ cfgNC.MDMCTS = PinName.NC) ∧
      Event.set_flow_control FlowControlMode.RTSCTS (PinName.pin 0)
        PinName.NC ∉ (run cfgNC 3).2.1 :=
  ⟨rfl, Or.inr rfl, C8_pin_nc_no_fc cfgNC 3 FlowControlMode.RTSCTS
    (PinName.pin 0) PinName.NC rfl (Or.inr rfl)⟩

/-- Counterexample to claim C1 as stated: with the flag enabled and both
pins configured, a sequence of two calls to
`get_target_default_instance()` invokes `set_flow_control` twice, not
exactly once. -/
theorem C1_counterexample :
    List.countP isSetFlowControl (run cfgFC 2).2.1 = 2 ∧ (2 : Nat) ≠ 1 := by
  constructor
  · decide
  · decide

/-- Claim C1 (amended): when the flag is enabled and both pins are
configured, `set_flow_control` is invoked with `RTSCTS` and the configured
RTS/CTS pins on every call — `n` times across `n` calls, not exactly once
overall; in the first call it is invoked exactly once, after the transport
is constructed and before the adapter is constructed and returned. -/
theorem C1_fc_once_per_call (c : Config) (n : Nat)
    (hf : c.DEVICE_SERIAL_FC = true)
    (hr : c.MDMRTS ≠ PinName.NC) (hc : c.MDMCTS ≠ PinName.NC) :
    (run c 1).2.1 =
      [Event.constructSerial c.MDMTXD c.MDMRXD c.MBED_CONF_SARA4_PPP_BAUDRATE,
       Event.logFlowControl c.MDMRTS c.MDMCTS,
       Event.set_flow_control FlowControlMode.RTSCTS c.MDMRTS c.MDMCTS,
       Event.constructDevice 0] ∧
    List.countP isSetFlowControl (run c n).2.1 = n := by
  constructor
  · simp [run, callSeq, gtdi_initState, fcEvents_configured hf hr hc]
  · cases n with
    | zero => simp [run, callSeq]
    | succ k =>
        rw [run_succ]
        simp [List.countP_cons, List.countP_append, countP_join_replicate,
              fcEvents_configured hf hr hc, isSetFlowControl]

/-- Witness for the amended C1 at a concrete configuration. -/
theorem C1_fc_once_per_call_witness :
    cfgFC.DEVICE_SERIAL_FC = true ∧ cfgFC.MDMRTS ≠ PinName.NC ∧
      cfgFC.MDMCTS ≠ PinName.NC ∧
      ((run cfgFC 1).2.1 =
        [Event.constructSerial cfgFC.MDMTXD cfgFC.MDMRXD
           cfgFC.MBED_CONF_SARA4_PPP_BAUDRATE,
         Event.logFlowControl cfgFC.MDMRTS cfgFC.MDMCTS,
         Event.set_flow_control FlowControlMode.RTSCTS cfgFC.MDMRTS
           cfgFC.MDMCTS,
         Event.constructDevice 0] ∧
       List.countP isSetFlowControl (run cfgFC 3).2.1 = 3) :=
  ⟨rfl, by decide, by decide,
   C1_fc_once_per_call cfgFC 3 rfl (by decide) (by decide)⟩

/-- Claim C9: at most one serial transport and at most one adapter are ever
constructed (exactly one each once the factory has been called); nothing is
constructed before the first call; the first call constructs the transport
with the configured TX/RX pins and baud rate and then the adapter wrapping
that transport; and both statics survive every later call. -/
theorem C9_singleton_invariant (c : Config) (n : Nat) (h : 1 ≤ n) :
    List.countP isConstructSerial (run c n).2.1 = 1 ∧
    List.countP isConstructDevice (run c n).2.1 = 1 ∧
    (run c 0).2.1 = [] ∧
    (run c 1).2.1 =
      Event.constructSerial c.MDMTXD c.MDMRXD c.MBED_CONF_SARA4_PPP_BAUDRATE ::
        (fcEvents c ++ [Event.constructDevice 0]) ∧
    (run c n).1 = postState := by
  obtain ⟨k, rfl⟩ : ∃ k, n = k + 1 := ⟨n - 1, by omega⟩
  refine ⟨?_, ?_, ?_, ?_, ?_⟩
  · rw [run_succ]
    simp [List.countP_cons, List.countP_append, countP_join_replicate,
          countP_fcEvents_serial, isConstructSerial]
  · rw [run_succ]
    simp [List.countP_cons, List.countP_append, countP_join_replicate,
          countP_fcEvents_device, isConstructDevice]
  · simp [run, callSeq]
  · simp [run, callSeq, gtdi_initState]
  · rw [run_succ]

/-- Witness for C9 after two concrete calls. -/
theorem C9_singleton_invariant_witness :
    1 ≤ 2 ∧
      (List.countP isConstructSerial (run cfgFC 2).2.1 = 1 ∧
       List.countP isConstructDevice (run cfgFC 2).2.1 = 1 ∧
       (run cfgFC 0).2.1 = [] ∧
       (run cfgFC 1).2.1 =
         Event.constructSerial cfgFC.MDMTXD cfgFC.MDMRXD
             cfgFC.MBED_CONF_SARA4_PPP_BAUDRATE ::
           (fcEvents cfgFC ++ [Event.constructDevice 0]) ∧
       (run cfgFC 2).1 = postState) :=
  ⟨by decide, C9_singleton_invariant cfgFC 2 (by decide)⟩

/-- Claim C10: with the flag compiled in and both pins configured, every
call to `get_target_default_instance()` — from any state of the statics,
not only the first call — emits the flow-control log line and invokes
`set_flow_control` with the same mode and pins; across `n` calls each is
emitted exactly `n` times. -/
theorem C10_fc_every_call (c : Config) (s : State) (n : Nat)
    (hf : c.DEVICE_SERIAL_FC = true)
    (hr : c.MDMRTS ≠ PinName.NC) (hc : c.MDMCTS ≠ PinName.NC) :
    Event.logFlowControl c.MDMRTS c.MDMCTS ∈
      (get_target_default_instance c s).2.1 ∧
    Event.set_flow_control FlowControlMode.RTSCTS c.MDMRTS c.MDMCTS ∈
      (get_target_default_instance c s).2.1 ∧
    List.countP isLogFlowControl (run c n).2.1 = n ∧
    List.countP isSetFlowControl (run c n).2.1 = n := by
  refine ⟨?_, ?_, ?_, ?_⟩
  · exact mem_fcEvents_gtdi c s (by simp [fcEvents_configured hf hr hc])
  · exact mem_fcEvents_gtdi c s (by simp [fcEvents_configured hf hr hc])
  · cases n with
    | zero => simp [run, callSeq]
    | succ k =>
        rw [run_succ]
        simp [List.countP_cons, List.countP_append, countP_join_replicate,
              fcEvents_configured hf hr hc, isLogFlowControl]
  · cases n with
    | zero => simp [run, callSeq]
    | succ k =>
        rw [run_succ]
        simp [List.countP_cons, List.countP_append, countP_join_replicate,
              fcEvents_configured hf hr hc, isSetFlowControl]

/-- Witness for C10 at a concrete configuration, from the post-first-call
state. -/
theorem C10_fc_every_call_witness :
    cfgFC.DEVICE_SERIAL_FC = true ∧ cfgFC.MDMRTS ≠ PinName.NC ∧
      cfgFC.MDMCTS ≠ PinName.NC ∧
      (Event.logFlowControl cfgFC.MDMRTS cfgFC.MDMCTS ∈
        (get_target_default_instance cfgFC postState).2.1 ∧
       Event.set_flow_control FlowControlMode.RTSCTS cfgFC.MDMRTS
           cfgFC.MDMCTS ∈
         (get_target_default_instance cfgFC postState).2.1 ∧
       List.countP isLogFlowControl (run cfgFC 2).2.1 = 2 ∧
       List.countP isSetFlowControl (run cfgFC 2).2.1 = 2) :=
  ⟨rfl, by decide, by decide,
   C10_fc_every_call cfgFC postState 2 rfl (by decide) (by decide)⟩

end OnboardSara4
